import Mathlib

/-!
Verification development for the us-lng-dashboard repository.

The repository's numeric data (EIA series values, timestamps in seconds,
percentiles) is modelled over `ℚ`.  Python/pandas float special values
(`nan`, `±inf`) that arise from division by zero are modelled explicitly by
the `PyF` and `ZScore` types below; for the inputs considered in this file
all arithmetic performed by the code is exact, so the rational model is
faithful.
-/

namespace LngDash


/-- Mean of a list of rationals, as computed by `pandas.Series.mean`
(`sum / length`; the `length = 0` case is never used below). -/
def listMean (l : List ℚ) : ℚ := l.sum / (l.length : ℚ)

/-- Sample variance with `ddof = 1`, the square of `pandas.Series.std`:
`Σ (x − mean)² / (n − 1)`.  The code works with `std = √sampleVar`; since the
square root is irrational in general, this development tracks the variance,
which is zero exactly when the standard deviation is. -/
def sampleVar (l : List ℚ) : ℚ :=
  (l.map (fun x => (x - listMean l) ^ 2)).sum / ((l.length : ℚ) - 1)

/-- A pandas float value: either a finite rational or one of the IEEE
special values produced by division by zero (`nan` also stands for a missing
value, pandas' null marker). -/
inductive PyF where
  | fin (q : ℚ)
  | pinf
  | ninf
  | nan
deriving Repr, DecidableEq

/-- IEEE division as performed by numpy/pandas on the exact values used in
this development: a finite value divided by zero gives `nan` (0/0) or a
signed infinity. -/
def pyDiv : PyF → PyF → PyF
  | .fin a, .fin b =>
      if b = 0 then (if a = 0 then .nan else if 0 < a then .pinf else .ninf)
      else .fin (a / b)
  | .nan, _ => .nan
  | _, .nan => .nan
  | .pinf, .fin b => if b = 0 then .nan else if 0 < b then .pinf else .ninf
  | .ninf, .fin b => if b = 0 then .nan else if 0 < b then .ninf else .pinf
  | .fin a, .pinf => if a = 0 then .fin 0 else .fin 0
  | .fin a, .ninf => if a = 0 then .fin 0 else .fin 0
  | .pinf, .pinf => .nan
  | .pinf, .ninf => .nan
  | .ninf, .pinf => .nan
  | .ninf, .ninf => .nan

/-- IEEE multiplication on the same value domain. -/
def pyMul : PyF → PyF → PyF
  | .fin a, .fin b => .fin (a * b)
  | .nan, _ => .nan
  | _, .nan => .nan
  | .pinf, .fin b => if b = 0 then .nan else if 0 < b then .pinf else .ninf
  | .ninf, .fin b => if b = 0 then .nan else if 0 < b then .ninf else .pinf
  | .fin a, .pinf => if a = 0 then .nan else if 0 < a then .pinf else .ninf
  | .fin a, .ninf => if a = 0 then .nan else if 0 < a then .ninf else .pinf
  | .pinf, .pinf => .pinf
  | .pinf, .ninf => .ninf
  | .ninf, .pinf => .ninf
  | .ninf, .ninf => .pinf

/-- A z-score value.  The code (`analytics.py` line 48) computes
`(x − mean) / std` with `std = √sampleVar`.  A finite z-score is represented
by its numerator `x − mean` together with the pool variance (the value being
`num / √var`), since the square root is irrational in general; when the
standard deviation is zero the IEEE division yields `nan` or a signed
infinity, exactly as recorded by the other three constructors. -/
inductive ZScore where
  | nan
  | pinf
  | ninf
  | fin (num : ℚ) (var : ℚ)
deriving Repr, DecidableEq

/-- Whether a z-score is a finite numeric value. -/
def ZScore.isFin : ZScore → Bool
  | .fin _ _ => true
  | _ => false

/-- The z-score `(x − mean) / std` of `analytics.py` line 48, in the `ZScore`
representation.  `std = √(sampleVar pool)` is zero iff `sampleVar pool = 0`
(the variance is a sum of squares over a positive denominator at every use
site), in which case the IEEE division by zero produces `nan` or `±∞`
depending on the sign of the numerator. -/
def pyZScore (x : ℚ) (pool : List ℚ) : ZScore :=
  if sampleVar pool = 0 then
    (if x = listMean pool then .nan
     else if listMean pool < x then .pinf else .ninf)
  else .fin (x - listMean pool) (sampleVar pool)

/-- `scipy.stats.percentileofscore(pool, x)` with the default
`kind = 'rank'`: with `left` the number of pool values `< x` and `right` the
number of pool values `≤ x`, the result is
`(left + right + (1 if a tie exists else 0)) * 50 / n`. -/
def percentileofscore (pool : List ℚ) (x : ℚ) : ℚ :=
  let left : ℕ := pool.countP (fun a => decide (a < x))
  let right : ℕ := pool.countP (fun a => decide (a ≤ x))
  (((left : ℚ) + (right : ℚ) + (if left < right then 1 else 0)) * 50) /
    ((pool.length : ℚ))

/-- Modelled from the spec: "Percentile rank = percentage of pool values ≤
the current value (…; ties counted at the midpoint convention)", i.e. the
textbook percentile rank `(count< + count≤) · 50 / n` in which each tied
pool value contributes one half.  Used only to compare the spec's wording
against the code's `percentileofscore`. -/
def specPercentileMidpoint (pool : List ℚ) (x : ℚ) : ℚ :=
  let left : ℕ := pool.countP (fun a => decide (a < x))
  let right : ℕ := pool.countP (fun a => decide (a ≤ x))
  (((left : ℚ) + (right : ℚ)) * 50) / ((pool.length : ℚ))

/-- One row of the storage dataframe after the temporal feature extraction
of `analytics.py` lines 24–28: `week` is `period.dt.isocalendar().week`,
`year` is `period.dt.year`, `value` the (non-null, the fetcher drops nulls)
storage reading; `period` is an abstract day ordinal. -/
structure Row where
  period : ℤ
  week : ℕ
  year : ℤ
  value : ℚ
deriving Repr, DecidableEq

/-- The historical pool rows for week `w` (`analytics.py` lines 41–44): rows
of the input frame whose week equals `w` and whose year lies in
`range(Y − 5, Y)`, where `Y` models `datetime.now().year` (line 32). -/
def poolRows (df : List Row) (Y : ℤ) (w : ℕ) : List Row :=
  df.filter (fun r => decide (r.week = w ∧ Y - 5 ≤ r.year ∧ r.year < Y))

/-- The values of the historical pool for week `w`. -/
def poolVals (df : List Row) (Y : ℤ) (w : ℕ) : List ℚ :=
  (poolRows df Y w).map (fun r => r.value)

/-- One output record of `calculate_storage_percentiles` (`analytics.py`
lines 50–60).  `historical_var` carries the square of the code's
`historical_std` (see `sampleVar`). -/
structure PercRecord where
  period : ℤ
  current_storage : ℚ
  percentile : ℚ
  z_score : ZScore
  historical_min : ℚ
  historical_max : ℚ
  historical_mean : ℚ
  historical_var : ℚ
  week : ℕ
deriving Repr, DecidableEq

/-- The record appended for a row with a qualifying pool (`analytics.py`
lines 46–60). -/
def mkRecord (df : List Row) (Y : ℤ) (r : Row) : PercRecord :=
  let pool := poolVals df Y r.week
  { period := r.period
    current_storage := r.value
    percentile := percentileofscore pool r.value
    z_score := pyZScore r.value pool
    historical_min := (pool.min?).getD 0
    historical_max := (pool.max?).getD 0
    historical_mean := listMean pool
    historical_var := sampleVar pool
    week := r.week }

/-- `NaturalGasAnalytics.calculate_storage_percentiles` (`analytics.py`
lines 18–62), with `Y` modelling `datetime.now().year`: iterate over the
rows in order and append a record for each row whose same-week historical
pool has at least 3 values. -/
def calculate_storage_percentiles (df : List Row) (Y : ℤ) : List PercRecord :=
  df.foldl
    (fun acc r =>
      if 3 ≤ (poolVals df Y r.week).length then acc ++ [mkRecord df Y r]
      else acc) []

/-- `Config.ALERT_THRESHOLDS` (`config.py` lines 89–95), the fields used by
the anomaly detector. -/
def storage_high_percentile : ℚ := 80

def storage_low_percentile : ℚ := 20

/-- A high- or low-storage alert entry (`analytics.py` lines 108–121); the
human-readable `message` string is a rendering of the numeric fields and is
not modelled. -/
structure LevelAlert where
  date : ℤ
  percentile : ℚ
  storage : ℚ
deriving Repr, DecidableEq

/-- A rapid-change alert entry (`analytics.py` lines 129–133); `change` is
the signed week-over-week storage delta. -/
structure RapidAlert where
  date : ℤ
  change : ℚ
deriving Repr, DecidableEq

/-- The three independent alert lists returned by
`detect_storage_anomalies` (`analytics.py` lines 95–99). -/
structure Anomalies where
  high_storage : List LevelAlert
  low_storage : List LevelAlert
  rapid_changes : List RapidAlert
deriving Repr, DecidableEq

/-- `NaturalGasAnalytics.detect_storage_anomalies` (`analytics.py` lines
93–135): inspect the last record for threshold alerts, and the last two
records for a rapid change of more than 100 BCF in absolute value. -/
def detect_storage_anomalies (df : List PercRecord) : Anomalies :=
  match df.getLast? with
  | none => ⟨[], [], []⟩
  | some latest =>
      let high : List LevelAlert :=
        if storage_high_percentile < latest.percentile then
          [⟨latest.period, latest.percentile, latest.current_storage⟩]
        else []
      let low : List LevelAlert :=
        if latest.percentile < storage_low_percentile then
          [⟨latest.period, latest.percentile, latest.current_storage⟩]
        else []
      let rapid : List RapidAlert :=
        if 2 ≤ df.length then
          match df.dropLast.getLast? with
          | some prev =>
              let change := latest.current_storage - prev.current_storage
              if 100 < |change| then [⟨latest.period, change⟩] else []
          | none => []
        else []
      ⟨high, low, rapid⟩

/-- Static metadata of one LNG facility (`config.py` lines 49–86). -/
structure FacilityInfo where
  current_capacity : ℚ
  future_capacity : ℚ
  location : String
  operator : String
deriving Repr, DecidableEq

/-- `Config.LNG_FACILITIES` (`config.py` lines 49–86), in dict order. -/
def lngFacilities : List (String × FacilityInfo) :=
  [ ("Sabine Pass", ⟨21/5, 21/5, "Louisiana", "Cheniere Energy"⟩),
    ("Corpus Christi", ⟨21/10, 18/5, "Texas", "Cheniere Energy"⟩),
    ("Cameron", ⟨17/10, 17/10, "Louisiana", "Sempra Energy"⟩),
    ("Freeport", ⟨21/10, 21/10, "Texas", "Freeport LNG"⟩),
    ("Cove Point", ⟨3/4, 3/4, "Maryland", "Dominion Energy"⟩),
    ("Elba Island", ⟨7/20, 7/20, "Georgia", "Shell/Kinder Morgan"⟩) ]

/-- The data key for a facility (`analytics.py` line 70):
`"lng_" + facility_name.lower().replace(' ', '_')`.  Lower-casing and the
single-character replacement are character-wise, so they are modelled as one
map over the characters. -/
def dataKey (name : String) : String :=
  "lng_" ++ String.mk
    (name.data.map (fun c => if c = ' ' then '_' else c.toLower))

/-- One observation of a monthly LNG export series: abstract month ordinal
and raw monthly volume (MMcf). -/
structure MObs where
  period : ℤ
  value : ℚ
deriving Repr, DecidableEq

/-- One output row of `calculate_lng_utilization` (`analytics.py` lines
77–83): the input observation's columns plus the derived and joined
columns. -/
structure UtilRecord where
  period : ℤ
  value : ℚ
  daily_exports : ℚ
  utilization_rate : ℚ
  facility : String
  capacity_bcfd : ℚ
  operator : String
  location : String
  future_capacity : ℚ
deriving Repr, DecidableEq

/-- The average-days-per-month divisor `30.44` of `analytics.py` line 77. -/
def daysPerMonth : ℚ := 761/25

/-- The derived row for one observation of one facility (`analytics.py`
lines 77–83). -/
def mkUtil (name : String) (info : FacilityInfo) (o : MObs) : UtilRecord :=
  let daily := (o.value / daysPerMonth) / 1000
  { period := o.period
    value := o.value
    daily_exports := daily
    utilization_rate := (daily / info.current_capacity) * 100
    facility := name
    capacity_bcfd := info.current_capacity
    operator := info.operator
    location := info.location
    future_capacity := info.future_capacity }

/-- The ordering used by `sort_values(['facility', 'period'])`
(`analytics.py` line 89). -/
def utilLE (a b : UtilRecord) : Bool :=
  decide (a.facility < b.facility) ||
    (a.facility == b.facility && decide (a.period ≤ b.period))

/-- `NaturalGasAnalytics.calculate_lng_utilization` (`analytics.py` lines
64–91): for each configured facility whose data key is present with a
non-empty series, derive the utilization rows; concatenate and sort by
facility then period. -/
def calculate_lng_utilization (lng : List (String × List MObs)) :
    List UtilRecord :=
  let parts : List (List UtilRecord) :=
    lngFacilities.filterMap
      (fun p =>
        match lng.lookup (dataKey p.1) with
        | some df =>
            if df.isEmpty then none else some (df.map (mkUtil p.1 p.2))
        | none => none)
  (parts.flatten).mergeSort utilLE

/-- One row of the `lng_total` monthly series after the feature extraction
of `analytics.py` lines 145–146 (`year`, `month` from `period`). -/
structure GRow where
  year : ℤ
  month : ℤ
  value : ℚ
deriving Repr, DecidableEq

/-- The prior-year value merged in `analytics.py` lines 149–153: the value
of the series row one calendar year earlier with the same month (the series
has unique periods, so the left merge matches at most one row); `none`
models the `NaN` produced by an unmatched left merge. -/
def prevYearValue (df : List GRow) (y m : ℤ) : Option ℚ :=
  (df.find? (fun r => decide (r.year + 1 = y ∧ r.month = m))).map
    (fun r => r.value)

/-- One output row of `calculate_lng_export_growth` (`analytics.py` lines
148–161). -/
structure GrowthRecord where
  year : ℤ
  month : ℤ
  value : ℚ
  prev_year_value : Option ℚ
  yoy_growth : PyF
  mom_growth : PyF
  ma_3m : PyF
  ma_12m : PyF
deriving Repr, DecidableEq

/-- Trailing `pandas.rolling(w).mean()` at position `i`: `NaN` until the
window is full, else the mean of the last `w` values up to and including
position `i`. -/
def rollMean (df : List GRow) (w i : ℕ) : PyF :=
  if i + 1 < w then .nan
  else .fin (listMean (((df.drop (i + 1 - w)).take w).map (fun r => r.value)))

/-- The growth row at position `i` (`analytics.py` lines 148–161):
`yoy_growth = (value − prev) / prev * 100` over the merged prior-year value
(`NaN` when unmatched, propagating through the arithmetic),
`mom_growth = pct_change() * 100`, and the 3- and 12-month trailing means. -/
def mkGrowthRecord (df : List GRow) (i : ℕ) (r : GRow) : GrowthRecord :=
  let prev := prevYearValue df r.year r.month
  { year := r.year
    month := r.month
    value := r.value
    prev_year_value := prev
    yoy_growth :=
      match prev with
      | none => .nan
      | some p => pyMul (pyDiv (.fin (r.value - p)) (.fin p)) (.fin 100)
    mom_growth :=
      match i with
      | 0 => .nan
      | n + 1 =>
          let p := (df.getD n ⟨0, 0, 0⟩).value
          pyMul (pyDiv (.fin (r.value - p)) (.fin p)) (.fin 100)
    ma_3m := rollMean df 3 i
    ma_12m := rollMean df 12 i }

/-- `NaturalGasAnalytics.calculate_lng_export_growth` (`analytics.py` lines
137–163): empty output when the `lng_total` key is absent, otherwise one
growth row per input row. -/
def calculate_lng_export_growth (total : Option (List GRow)) :
    List GrowthRecord :=
  match total with
  | none => []
  | some df => df.enum.map (fun p => mkGrowthRecord df p.1 p.2)

/-- The three dataset keys stored by `DataScheduler` (`scheduler.py` lines
28, 45, 61): `'lng_data'`, `'storage_data'`, `'news_data'`. -/
inductive DKey where
  | lng
  | storage
  | news
deriving Repr, DecidableEq

/-- A cached payload: `fetch_multiple_series` results (a dict from series
name to non-empty dataframe, modelled as an association list) for the LNG
and storage keys, or a list of news articles (abstracted to their titles)
for the news key. -/
inductive CacheVal where
  | series (d : List (String × List MObs))
  | news (a : List String)
deriving Repr, DecidableEq

/-- The mutable state of `DataScheduler` (`scheduler.py` lines 17–18):
`data_cache` and `last_update`, both initially empty dicts.  Timestamps are
rationals in seconds (`datetime.now()`). -/
structure SchedState where
  data_cache : DKey → Option CacheVal
  last_update : DKey → Option ℚ

/-- The freshly constructed scheduler: both dicts empty. -/
def initState : SchedState := ⟨fun _ => none, fun _ => none⟩

/-- Outcome of the fetch collaborator for a series-shaped dataset:
`Except.error` models an exception escaping `fetch_multiple_series`, `.ok d`
its returned dict. -/
def FetchResS := Except Unit (List (String × List MObs))

/-- Outcome of `NewsDataFetcher.fetch_news`. -/
def FetchResN := Except Unit (List String)

/-- A failed series refresh attempt: the collaborator raised, or returned an
empty (falsy) dict (`scheduler.py` lines 27, 31–35). -/
def fetchFailedS (r : FetchResS) : Prop :=
  match r with
  | .error _ => True
  | .ok d => d = []

/-- A failed news refresh attempt (`scheduler.py` lines 60, 64–68). -/
def fetchFailedN (r : FetchResN) : Prop :=
  match r with
  | .error _ => True
  | .ok d => d = []

/-- `DataScheduler.update_lng_data` (`scheduler.py` lines 20–35) with the
fetch outcome `r` (obtained at time `now`) passed explicitly: store the
snapshot and the timestamp together iff the fetch returned a non-empty
dict; an exception or an empty dict leaves the state untouched. -/
def update_lng_data (s : SchedState) (now : ℚ) (r : FetchResS) : SchedState :=
  match r with
  | .error _ => s
  | .ok d =>
      if d.isEmpty then s
      else
        { data_cache := fun k =>
            if k = DKey.lng then some (CacheVal.series d) else s.data_cache k
          last_update := fun k =>
            if k = DKey.lng then some now else s.last_update k }

/-- `DataScheduler.update_storage_data` (`scheduler.py` lines 37–52). -/
def update_storage_data (s : SchedState) (now : ℚ) (r : FetchResS) :
    SchedState :=
  match r with
  | .error _ => s
  | .ok d =>
      if d.isEmpty then s
      else
        { data_cache := fun k =>
            if k = DKey.storage then some (CacheVal.series d)
            else s.data_cache k
          last_update := fun k =>
            if k = DKey.storage then some now else s.last_update k }

/-- `DataScheduler.update_news_data` (`scheduler.py` lines 54–68). -/
def update_news_data (s : SchedState) (now : ℚ) (r : FetchResN) : SchedState :=
  match r with
  | .error _ => s
  | .ok d =>
      if d.isEmpty then s
      else
        { data_cache := fun k =>
            if k = DKey.news then some (CacheVal.news d) else s.data_cache k
          last_update := fun k =>
            if k = DKey.news then some now else s.last_update k }

/-- The per-key maximum age in minutes used by `get_cached_data`
(`scheduler.py` lines 101–105), from `Config.LNG_DATA_REFRESH`,
`Config.STORAGE_DATA_REFRESH` and `Config.NEWS_REFRESH` (`config.py` lines
13–15). -/
def maxAgeMinutes : DKey → ℚ
  | .lng => 60
  | .storage => 1440
  | .news => 15

/-- `DataScheduler.get_cached_data` (`scheduler.py` lines 93–111) at
wall-clock time `now` (seconds): absent key gives `None`; a key with a
last-update timestamp older than the configured interval gives `None`
(lines 107–109); otherwise the cached snapshot is returned.  The return
value carries no staleness flag. -/
def get_cached_data (s : SchedState) (now : ℚ) (k : DKey) : Option CacheVal :=
  match s.data_cache k with
  | none => none
  | some d =>
      match s.last_update k with
      | none => some d
      | some t =>
          if maxAgeMinutes k * 60 < now - t then none else some d

/-- One scheduler-level operation: a refresh of one of the three datasets
(with the fetch outcome it observed), or a read.  Reads
(`get_cached_data`) perform no mutation, so the step function returns the
state unchanged for them. -/
inductive SchedOp where
  | refreshLng (now : ℚ) (r : FetchResS)
  | refreshStorage (now : ℚ) (r : FetchResS)
  | refreshNews (now : ℚ) (r : FetchResN)
  | readOp (now : ℚ) (k : DKey)

/-- The state transition of one operation. -/
def schedStep (s : SchedState) (op : SchedOp) : SchedState :=
  match op with
  | .refreshLng now r => update_lng_data s now r
  | .refreshStorage now r => update_storage_data s now r
  | .refreshNews now r => update_news_data s now r
  | .readOp _ _ => s

/-- The state after a sequence of operations from process start. -/
def runSched (ops : List SchedOp) : SchedState :=
  ops.foldl schedStep initState

/-- The key-presence invariant of the scheduler's two dicts: a dataset key
has a cached snapshot exactly when it has a last-update timestamp. -/
def cacheInv (s : SchedState) : Prop :=
  ∀ k, (s.data_cache k).isSome = (s.last_update k).isSome

/-! Concrete inputs used by counterexamples and witnesses.  Weeks and years
below correspond to realizable dates (ISO week 10 falls in March, week 5 in
early February, of the stated calendar years). -/

/-- A storage frame read with wall-clock year 2026: an observation from 2025
(week 10, value 2) together with same-week rows from 2022, 2023 and a second
2025 row. -/
def df2 : List Row :=
  [ ⟨0, 10, 2025, 2⟩, ⟨1, 10, 2023, 1⟩, ⟨2, 10, 2022, 3⟩, ⟨3, 10, 2025, 7⟩ ]

/-- A storage frame whose week-5 historical pool is `[100, 100, 100]`
(standard deviation zero) with a current observation of 150 in 2026. -/
def df3 : List Row :=
  [ ⟨0, 5, 2023, 100⟩, ⟨1, 5, 2024, 100⟩, ⟨2, 5, 2025, 100⟩,
    ⟨3, 5, 2026, 150⟩ ]

/-- A storage frame whose week-10 historical pool is `[1, 2, 3]` with a 2026
observation of value 2, tying the pool value 2. -/
def df5 : List Row :=
  [ ⟨0, 10, 2023, 1⟩, ⟨1, 10, 2022, 2⟩, ⟨2, 10, 2021, 3⟩, ⟨3, 10, 2026, 2⟩ ]

/-- An `lng_total` series in which July 2019 has value 0 and July 2020 has
value 5, so the 2020 row's prior-year value is zero. -/
def df6 : List GRow := [ ⟨2019, 7, 0⟩, ⟨2020, 7, 5⟩ ]

/-- LNG data holding one Sabine Pass observation of raw monthly volume
3800 MMcf (the spec's utilization scenario; Sabine Pass capacity is 4.2). -/
def lng9 : List (String × List MObs) :=
  [ ("lng_sabine_pass", [⟨0, 3800⟩]) ]

/-- A non-empty fetch payload. -/
def d0 : List (String × List MObs) := [ ("lng_total", [⟨0, 1⟩]) ]

/-- The scheduler state after one successful LNG refresh at time 0. -/
def s0 : SchedState := update_lng_data initState 0 (Except.ok d0)

/-! Helper lemmas shared by the claim proofs. -/

theorem calc_foldl_acc (df : List Row) (Y : ℤ) (l : List Row)
    (acc : List PercRecord) :
    l.foldl
      (fun acc r =>
        if 3 ≤ (poolVals df Y r.week).length then acc ++ [mkRecord df Y r]
        else acc) acc
      = acc ++
        (l.filter (fun r => decide (3 ≤ (poolVals df Y r.week).length))).map
          (mkRecord df Y) := by
  induction l generalizing acc with
  | nil => simp
  | cons a t ih =>
      by_cases h : 3 ≤ (poolVals df Y a.week).length
      · simp [List.foldl_cons, ih, h, List.filter_cons]
      · simp [List.foldl_cons, ih, h, List.filter_cons]

/-- The output of `calculate_storage_percentiles` is exactly the qualifying
rows, in order, mapped to their records. -/
theorem calc_eq_filter_map (df : List Row) (Y : ℤ) :
    calculate_storage_percentiles df Y
      = (df.filter
          (fun r => decide (3 ≤ (poolVals df Y r.week).length))).map
          (mkRecord df Y) := by
  unfold calculate_storage_percentiles
  simpa using calc_foldl_acc df Y df []

theorem mem_calc_iff (df : List Row) (Y : ℤ) (rec : PercRecord) :
    rec ∈ calculate_storage_percentiles df Y ↔
      ∃ r ∈ df, 3 ≤ (poolVals df Y r.week).length ∧ rec = mkRecord df Y r := by
  rw [calc_eq_filter_map]
  simp only [List.mem_map, List.mem_filter, decide_eq_true_eq]
  constructor
  · rintro ⟨r, ⟨hr, hq⟩, hrec⟩
    exact ⟨r, hr, hq, hrec.symm⟩
  · rintro ⟨r, hr, hq, hrec⟩
    exact ⟨r, ⟨hr, hq⟩, hrec.symm⟩

theorem countP_le_split (l : List ℚ) (x : ℚ) :
    l.countP (fun a => decide (a ≤ x))
      = l.countP (fun a => decide (a < x)) +
          l.countP (fun a => decide (a = x)) := by
  induction l with
  | nil => simp
  | cons a t ih =>
      rcases lt_trichotomy a x with h | h | h
      · simp only [List.countP_cons, ih, decide_eq_true_eq]
        simp [h, h.le, h.ne]
        omega
      · subst h
        simp only [List.countP_cons, ih, decide_eq_true_eq]
        simp [lt_irrefl]
        omega
      · simp only [List.countP_cons, ih, decide_eq_true_eq]
        simp [h.ne.symm, not_le.mpr h, not_lt.mpr h.le]

/-- The code's `percentileofscore` (scipy's `kind = 'rank'`) equals the
spec's midpoint-convention percentile plus an extra `50 / n` exactly when
the scored value ties some pool value. -/
theorem percentileofscore_eq_midpoint (pool : List ℚ) (x : ℚ) :
    percentileofscore pool x
      = specPercentileMidpoint pool x +
          (if x ∈ pool then 50 / (pool.length : ℚ) else 0) := by
  unfold percentileofscore specPercentileMidpoint
  have hsplit := countP_le_split pool x
  by_cases hx : x ∈ pool
  · have hpos : 0 < pool.countP (fun a => decide (a = x)) :=
      List.countP_pos_iff.mpr ⟨x, hx, by simp⟩
    have hlt : pool.countP (fun a => decide (a < x)) <
        pool.countP (fun a => decide (a ≤ x)) := by omega
    simp only [hx, if_true, hlt, if_pos]
    rw [show ((pool.countP (fun a => decide (a < x)) : ℚ) +
        (pool.countP (fun a => decide (a ≤ x)) : ℚ) + 1) * 50
      = ((pool.countP (fun a => decide (a < x)) : ℚ) +
        (pool.countP (fun a => decide (a ≤ x)) : ℚ)) * 50 + 50 from by ring]
    rw [add_div]
  · have hc : pool.countP (fun a => decide (a = x)) = 0 := by
      rw [List.countP_eq_zero]
      intro a ha
      simp only [decide_eq_true_eq]
      intro hax
      exact hx (hax ▸ ha)
    have heq : pool.countP (fun a => decide (a ≤ x))
        = pool.countP (fun a => decide (a < x)) := by omega
    simp [hx, heq]

theorem cacheInv_init : cacheInv initState := fun _ => rfl

theorem cacheInv_step (s : SchedState) (op : SchedOp) (h : cacheInv s) :
    cacheInv (schedStep s op) := by
  intro k
  cases op with
  | refreshLng now r =>
      cases r with
      | error e => exact h k
      | ok d =>
          by_cases hd : d.isEmpty
          · simp [schedStep, update_lng_data, hd]
            exact h k
          · simp only [schedStep, update_lng_data, hd, if_neg,
              Bool.not_eq_true] at *
            by_cases hk : k = DKey.lng <;> simp [hk, h k]
  | refreshStorage now r =>
      cases r with
      | error e => exact h k
      | ok d =>
          by_cases hd : d.isEmpty
          · simp [schedStep, update_storage_data, hd]
            exact h k
          · simp only [schedStep, update_storage_data, hd, if_neg,
              Bool.not_eq_true] at *
            by_cases hk : k = DKey.storage <;> simp [hk, h k]
  | refreshNews now r =>
      cases r with
      | error e => exact h k
      | ok d =>
          by_cases hd : d.isEmpty
          · simp [schedStep, update_news_data, hd]
            exact h k
          · simp only [schedStep, update_news_data, hd, if_neg,
              Bool.not_eq_true] at *
            by_cases hk : k = DKey.news <;> simp [hk, h k]
  | readOp now k2 => exact h k

theorem cacheInv_foldl (ops : List SchedOp) (s : SchedState)
    (h : cacheInv s) : cacheInv (ops.foldl schedStep s) := by
  induction ops generalizing s with
  | nil => exact h
  | cons op t ih => exact ih (schedStep s op) (cacheInv_step s op h)

/-! The claims. -/

unseal Rat.add Rat.mul Rat.sub Rat.inv Rat.ofScientific in
/-- Claim C1 (counterexample): the LNG dataset is refreshed successfully at
time 0 with a 60-minute interval; a read at 3660 seconds (61 minutes) later
returns None even though the snapshot is still stored in the cache — the
code evicts stale data from reads instead of returning it with a staleness
flag (scheduler.py lines 107–109). -/
theorem C1_counterexample :
    s0.data_cache DKey.lng = some (CacheVal.series d0) ∧
    s0.last_update DKey.lng = some 0 ∧
    get_cached_data s0 3660 DKey.lng = none := by decide

/-- Claim C1 (amended): for every dataset — LNG, storage and news, with
their configured intervals of 60, 1440 and 15 minutes — after a successful
refresh at time t, a read performed once the snapshot's age exceeds the
dataset's configured refresh interval returns None; the stored snapshot,
although still present in the cache, is withheld, and no staleness
indication exists in the return value. -/
theorem C1_stale_read_returns_none (s : SchedState) (t now : ℚ) :
    (∀ d : List (String × List MObs), d ≠ [] →
      maxAgeMinutes DKey.lng * 60 < now - t →
      get_cached_data (update_lng_data s t (Except.ok d)) now DKey.lng
          = none ∧
      (update_lng_data s t (Except.ok d)).data_cache DKey.lng
          = some (CacheVal.series d)) ∧
    (∀ d : List (String × List MObs), d ≠ [] →
      maxAgeMinutes DKey.storage * 60 < now - t →
      get_cached_data (update_storage_data s t (Except.ok d)) now DKey.storage
          = none ∧
      (update_storage_data s t (Except.ok d)).data_cache DKey.storage
          = some (CacheVal.series d)) ∧
    (∀ a : List String, a ≠ [] →
      maxAgeMinutes DKey.news * 60 < now - t →
      get_cached_data (update_news_data s t (Except.ok a)) now DKey.news
          = none ∧
      (update_news_data s t (Except.ok a)).data_cache DKey.news
          = some (CacheVal.news a)) := by
  refine ⟨?_, ?_, ?_⟩ <;> intro d hd hstale <;>
    have hde : d.isEmpty = false := by
      cases d with
      | nil => exact absurd rfl hd
      | cons a t2 => rfl
  · exact ⟨by simp [get_cached_data, update_lng_data, hde, hstale],
      by simp [update_lng_data, hde]⟩
  · exact ⟨by simp [get_cached_data, update_storage_data, hde, hstale],
      by simp [update_storage_data, hde]⟩
  · exact ⟨by simp [get_cached_data, update_news_data, hde, hstale],
      by simp [update_news_data, hde]⟩

unseal Rat.add Rat.mul Rat.sub Rat.inv Rat.ofScientific in
/-- Witness for the amended C1 theorem: one stale read per dataset — the
LNG snapshot refreshed at 0 read at 3660 s (61 min > 60 min), the storage
snapshot read at 86460 s (1441 min > 1440 min), and the news snapshot read
at 960 s (16 min > 15 min). -/
theorem C1_witness :
    (get_cached_data (update_lng_data initState 0 (Except.ok d0)) 3660
        DKey.lng = none ∧
      (update_lng_data initState 0 (Except.ok d0)).data_cache DKey.lng
        = some (CacheVal.series d0)) ∧
    (get_cached_data (update_storage_data initState 0 (Except.ok d0)) 86460
        DKey.storage = none ∧
      (update_storage_data initState 0 (Except.ok d0)).data_cache DKey.storage
        = some (CacheVal.series d0)) ∧
    (get_cached_data (update_news_data initState 0 (Except.ok ["a"])) 960
        DKey.news = none ∧
      (update_news_data initState 0 (Except.ok ["a"])).data_cache DKey.news
        = some (CacheVal.news ["a"])) :=
  ⟨(C1_stale_read_returns_none initState 0 3660).1 d0 (by decide) (by decide),
   (C1_stale_read_returns_none initState 0 86460).2.1 d0 (by decide)
     (by decide),
   (C1_stale_read_returns_none initState 0 960).2.2 ["a"] (by decide)
     (by decide)⟩

unseal Rat.add Rat.mul Rat.sub Rat.inv Rat.ofScientific in
/-- Claim C2 (counterexample): with wall-clock year 2026, the 2025
observation of df2 is processed (its week-10 pool has 4 ≥ 3 values), yet
its historical pool contains itself and the other 2025 row — observations
from the observation's own calendar year. -/
theorem C2_counterexample :
    (⟨0, 10, 2025, 2⟩ : Row) ∈ df2 ∧
    3 ≤ (poolVals df2 2026 10).length ∧
    mkRecord df2 2026 ⟨0, 10, 2025, 2⟩ ∈
      calculate_storage_percentiles df2 2026 ∧
    (⟨0, 10, 2025, 2⟩ : Row) ∈ poolRows df2 2026 10 ∧
    (⟨3, 10, 2025, 7⟩ : Row) ∈ poolRows df2 2026 10 := by decide

/-- Claim C2 (amended): the historical pool of every processed observation
consists of same-week observations whose calendar year lies in the window
of the five years strictly before the wall-clock year Y at computation time
— the window is anchored at Y for every observation alike, not at the
observation's own year, so observations from years before Y can find
own-year observations (themselves included) in their pool. -/
theorem C2_pool_window (df : List Row) (Y : ℤ) (rec : PercRecord)
    (_h : rec ∈ calculate_storage_percentiles df Y) :
    ∀ r ∈ poolRows df Y rec.week,
      r.week = rec.week ∧ Y - 5 ≤ r.year ∧ r.year < Y := by
  intro r hr
  have h2 := List.mem_filter.mp hr
  exact of_decide_eq_true h2.2

unseal Rat.add Rat.mul Rat.sub Rat.inv Rat.ofScientific in
/-- Witness for the amended C2 theorem: the second 2025 row of df2 lies in
the processed 2025 observation's pool and in the window [2021, 2025]. -/
theorem C2_witness :
    (⟨3, 10, 2025, 7⟩ : Row).week
        = (mkRecord df2 2026 ⟨0, 10, 2025, 2⟩).week ∧
    2026 - 5 ≤ (⟨3, 10, 2025, 7⟩ : Row).year ∧
    (⟨3, 10, 2025, 7⟩ : Row).year < 2026 :=
  C2_pool_window df2 2026 (mkRecord df2 2026 ⟨0, 10, 2025, 2⟩) (by decide)
    ⟨3, 10, 2025, 7⟩ (by decide)

unseal Rat.add Rat.mul Rat.sub Rat.inv Rat.ofScientific in
/-- Claim C3 (counterexample): the week-5 pool of df3 is [100, 100, 100]
with standard deviation exactly zero, and the emitted record for the 2026
observation of value 150 carries the z-score +∞ — the IEEE result of the
division by zero — rather than an explicit undefined marker. -/
theorem C3_counterexample :
    sampleVar (poolVals df3 2026 5) = 0 ∧
    (calculate_storage_percentiles df3 2026).map (fun r => r.z_score)
      = [ZScore.nan, ZScore.nan, ZScore.nan, ZScore.pinf] := by decide

/-- Claim C3 (amended): an emitted record's z-score is a finite numeric
value iff the pool's standard deviation (equivalently its sample variance)
is non-zero; when the standard deviation is exactly zero, the record
carries the IEEE result of dividing by zero — NaN or a signed infinity —
and never an explicit undefined marker. -/
theorem C3_zscore_nonfinite_iff_zero_var (df : List Row) (Y : ℤ)
    (rec : PercRecord) (h : rec ∈ calculate_storage_percentiles df Y) :
    (rec.z_score.isFin = true ↔ sampleVar (poolVals df Y rec.week) ≠ 0) ∧
    (sampleVar (poolVals df Y rec.week) = 0 →
      rec.z_score = ZScore.nan ∨ rec.z_score = ZScore.pinf ∨
        rec.z_score = ZScore.ninf) := by
  rcases (mem_calc_iff df Y rec).mp h with ⟨r, hr, hq, hrec⟩
  subst hrec
  have hw : (mkRecord df Y r).week = r.week := rfl
  have hz : (mkRecord df Y r).z_score
      = pyZScore r.value (poolVals df Y r.week) := rfl
  rw [hw, hz]
  unfold pyZScore
  by_cases hv : sampleVar (poolVals df Y r.week) = 0
  · rw [if_pos hv]
    constructor
    · constructor
      · intro hfin
        by_cases h1 : r.value = listMean (poolVals df Y r.week) <;>
          by_cases h2 : listMean (poolVals df Y r.week) < r.value <;>
          simp [h1, h2, ZScore.isFin] at hfin
      · intro hne
        exact absurd hv hne
    · intro _
      by_cases h1 : r.value = listMean (poolVals df Y r.week)
      · simp [h1]
      · by_cases h2 : listMean (poolVals df Y r.week) < r.value <;>
          simp [h1, h2]
  · rw [if_neg hv]
    exact ⟨⟨fun _ => hv, fun _ => rfl⟩, fun hv0 => absurd hv0 hv⟩

unseal Rat.add Rat.mul Rat.sub Rat.inv Rat.ofScientific in
/-- Witness for the amended C3 theorem at the zero-variance record of
df3. -/
theorem C3_witness :
    (mkRecord df3 2026 ⟨3, 5, 2026, 150⟩).z_score = ZScore.nan ∨
    (mkRecord df3 2026 ⟨3, 5, 2026, 150⟩).z_score = ZScore.pinf ∨
    (mkRecord df3 2026 ⟨3, 5, 2026, 150⟩).z_score = ZScore.ninf :=
  (C3_zscore_nonfinite_iff_zero_var df3 2026
    (mkRecord df3 2026 ⟨3, 5, 2026, 150⟩) (by decide)).2 (by decide)

/-- Claim C4: a refresh attempt that fails — the fetch collaborator raised
or returned an empty result — leaves the whole scheduler state, both the
cached snapshot and the last-refresh timestamp of every dataset, exactly
unchanged, for each of the three update operations; hence only a successful
refresh changes either field. -/
theorem C4_failed_refresh_keeps_state (s : SchedState) (now : ℚ) :
    (∀ r : FetchResS, fetchFailedS r → update_lng_data s now r = s) ∧
    (∀ r : FetchResS, fetchFailedS r → update_storage_data s now r = s) ∧
    (∀ r : FetchResN, fetchFailedN r → update_news_data s now r = s) := by
  refine ⟨?_, ?_, ?_⟩ <;> intro r hf <;> cases r with
  | error e => rfl
  | ok d =>
      have hd : d = [] := hf
      subst hd
      rfl

/-- Witness for C4: a raising refresh at a concrete state and time is a
no-op. -/
theorem C4_witness :
    update_lng_data initState 5 (Except.error ()) = initState :=
  (C4_failed_refresh_keeps_state initState 5).1 (Except.error ()) trivial

unseal Rat.add Rat.mul Rat.sub Rat.inv Rat.ofScientific in
/-- Claim C5 (counterexample): the emitted record for the 2026 observation
of value 2 of df5 (pool [1, 2, 3]) carries the percentile 200/3 ≈ 66.7
computed by scipy's rank convention, whereas the percentage of pool values
at or below 2 with the tie counted at the midpoint is 50. -/
theorem C5_counterexample :
    ((calculate_storage_percentiles df5 2026).getLast?).map
        (fun r => (r.current_storage, r.percentile)) = some (2, 200/3) ∧
    specPercentileMidpoint (poolVals df5 2026 10) 2 = 50 ∧
    ((200 : ℚ)/3) ≠ 50 := by decide

/-- Claim C5 (amended): an emitted record's percentile equals the
midpoint-convention percentage of pool values at or below the observation's
value plus an extra 50/n exactly when the value ties some pool value
(scipy's default rank convention); the two conventions agree only when no
pool value equals the observation's value. -/
theorem C5_percentile_rank_convention (df : List Row) (Y : ℤ)
    (rec : PercRecord) (h : rec ∈ calculate_storage_percentiles df Y) :
    rec.percentile
      = specPercentileMidpoint (poolVals df Y rec.week) rec.current_storage +
          (if rec.current_storage ∈ poolVals df Y rec.week then
            50 / ((poolVals df Y rec.week).length : ℚ)
          else 0) := by
  rcases (mem_calc_iff df Y rec).mp h with ⟨r, hr, hq, hrec⟩
  subst hrec
  exact percentileofscore_eq_midpoint (poolVals df Y r.week) r.value

unseal Rat.add Rat.mul Rat.sub Rat.inv Rat.ofScientific in
/-- Witness for the amended C5 theorem at the tied observation of df5. -/
theorem C5_witness :
    (mkRecord df5 2026 ⟨3, 10, 2026, 2⟩).percentile
      = specPercentileMidpoint
          (poolVals df5 2026 (mkRecord df5 2026 ⟨3, 10, 2026, 2⟩).week)
          (mkRecord df5 2026 ⟨3, 10, 2026, 2⟩).current_storage +
        (if (mkRecord df5 2026 ⟨3, 10, 2026, 2⟩).current_storage ∈
            poolVals df5 2026 (mkRecord df5 2026 ⟨3, 10, 2026, 2⟩).week then
          50 / ((poolVals df5 2026
            (mkRecord df5 2026 ⟨3, 10, 2026, 2⟩).week).length : ℚ)
        else 0) :=
  C5_percentile_rank_convention df5 2026
    (mkRecord df5 2026 ⟨3, 10, 2026, 2⟩) (by decide)

unseal Rat.add Rat.mul Rat.sub Rat.inv Rat.ofScientific in
/-- Claim C6 (counterexample): in df6 the July 2020 row has a prior-year
match of value 0, and its year-over-year growth is +∞ — the IEEE result of
the division by zero — not an explicit undefined/null value (the July 2019
row, with no match, gets the null marker NaN). -/
theorem C6_counterexample :
    (calculate_lng_export_growth (some df6)).map
        (fun g => (g.prev_year_value, g.yoy_growth))
      = [(none, PyF.nan), (some 0, PyF.pinf)] := by decide

/-- Claim C6 (amended): for every emitted growth row,
yoy = (value − prior) / prior · 100 when a prior-year match with non-zero
value exists; the null marker NaN when no match exists (or when both the
value and the prior are zero); and a signed infinity — a numeric IEEE
sentinel, not a null — when the prior-year value is zero and the value is
not. -/
theorem C6_yoy_growth_cases (df : List GRow) (g : GrowthRecord)
    (h : g ∈ calculate_lng_export_growth (some df)) :
    (∀ p : ℚ, g.prev_year_value = some p → p ≠ 0 →
      g.yoy_growth = PyF.fin ((g.value - p) / p * 100)) ∧
    (g.prev_year_value = none → g.yoy_growth = PyF.nan) ∧
    (g.prev_year_value = some 0 → g.value ≠ 0 →
      (g.yoy_growth = PyF.pinf ∨ g.yoy_growth = PyF.ninf)) ∧
    (g.prev_year_value = some 0 → g.value = 0 → g.yoy_growth = PyF.nan) := by
  rcases List.mem_map.mp h with ⟨⟨i, r⟩, hir, hg⟩
  subst hg
  have hprev : (mkGrowthRecord df i r).prev_year_value
      = prevYearValue df r.year r.month := rfl
  have hval : (mkGrowthRecord df i r).value = r.value := rfl
  cases hp : prevYearValue df r.year r.month with
  | none =>
      refine ⟨?_, ?_, ?_, ?_⟩
      · intro p hsome
        rw [hprev, hp] at hsome
        exact absurd hsome (by simp)
      · intro _
        show (match prevYearValue df r.year r.month with
          | none => PyF.nan
          | some p => pyMul (pyDiv (.fin (r.value - p)) (.fin p)) (.fin 100))
            = PyF.nan
        rw [hp]
      · intro hsome
        rw [hprev, hp] at hsome
        exact absurd hsome (by simp)
      · intro hsome
        rw [hprev, hp] at hsome
        exact absurd hsome (by simp)
  | some p0 =>
      have hyoy : (mkGrowthRecord df i r).yoy_growth
          = pyMul (pyDiv (.fin (r.value - p0)) (.fin p0)) (.fin 100) := by
        show (match prevYearValue df r.year r.month with
          | none => PyF.nan
          | some p => pyMul (pyDiv (.fin (r.value - p)) (.fin p)) (.fin 100))
            = _
        rw [hp]
      refine ⟨?_, ?_, ?_, ?_⟩
      · intro p hsome hpne
        rw [hprev, hp] at hsome
        injection hsome with hpp
        subst hpp
        rw [hyoy, hval]
        simp only [pyDiv, if_neg hpne, pyMul]
      · intro hnone
        rw [hprev, hp] at hnone
        exact absurd hnone (by simp)
      · intro hsome hvne
        rw [hprev, hp] at hsome
        injection hsome with hpp
        rw [hval] at hvne
        subst hpp
        rw [hyoy]
        simp only [sub_zero, pyDiv, if_pos rfl, if_neg hvne]
        by_cases hvpos : 0 < r.value
        · left
          simp only [if_pos hvpos, pyMul]
          norm_num
        · right
          simp only [if_neg hvpos, pyMul]
          norm_num
      · intro hsome hv0
        rw [hprev, hp] at hsome
        injection hsome with hpp
        rw [hval] at hv0
        subst hpp
        rw [hyoy, hv0]
        simp [pyDiv, pyMul]

unseal Rat.add Rat.mul Rat.sub Rat.inv Rat.ofScientific in
/-- Witness for the amended C6 theorem at the zero-prior row of df6. -/
theorem C6_witness :
    (mkGrowthRecord df6 1 ⟨2020, 7, 5⟩).yoy_growth = PyF.pinf ∨
    (mkGrowthRecord df6 1 ⟨2020, 7, 5⟩).yoy_growth = PyF.ninf :=
  (C6_yoy_growth_cases df6 (mkGrowthRecord df6 1 ⟨2020, 7, 5⟩)
    (by decide)).2.2.1 (by decide) (by decide)

/-- Claim C7: the percentile computation emits exactly one record per input
row whose same-week historical pool has at least 3 values, in input order —
so omissions are exactly the small-pool rows and never abort processing of
the remaining rows — and the output length never exceeds the input
length. -/
theorem C7_output_shape (df : List Row) (Y : ℤ) :
    calculate_storage_percentiles df Y
      = (df.filter
          (fun r => decide (3 ≤ (poolVals df Y r.week).length))).map
          (mkRecord df Y) ∧
    (calculate_storage_percentiles df Y).length ≤ df.length := by
  refine ⟨calc_eq_filter_map df Y, ?_⟩
  rw [calc_eq_filter_map, List.length_map]
  exact List.length_filter_le _ _

/-- Claim C8: the rapid-change alert list is non-empty exactly when the
input has at least two records and the absolute difference between the last
and second-to-last current values exceeds 100, in which case it is the
single alert carrying the signed delta. -/
theorem C8_rapid_change_characterization (df : List PercRecord) :
    (detect_storage_anomalies df).rapid_changes
      = match df.getLast?, df.dropLast.getLast? with
        | some l, some p =>
            if 100 < |l.current_storage - p.current_storage| then
              [⟨l.period, l.current_storage - p.current_storage⟩]
            else []
        | _, _ => [] := by
  cases hL : df.getLast? with
  | none =>
      have hnil : df = [] := List.getLast?_eq_none_iff.mp hL
      subst hnil
      rfl
  | some l =>
      cases hP : df.dropLast.getLast? with
      | none =>
          have hdl : df.dropLast = [] := List.getLast?_eq_none_iff.mp hP
          have hlen : ¬ 2 ≤ df.length := by
            have := List.length_dropLast df
            rw [hdl] at this
            simp at this
            omega
          unfold detect_storage_anomalies
          rw [hL]
          simp [hlen]
      | some p =>
          have hlen : 2 ≤ df.length := by
            have hne : df.dropLast ≠ [] := by
              intro hdl
              rw [hdl] at hP
              exact absurd hP (by simp)
            have h1 : 1 ≤ df.dropLast.length := List.length_pos.mpr hne
            have := List.length_dropLast df
            omega
          unfold detect_storage_anomalies
          rw [hL]
          simp only [hlen, if_true, hP]

unseal Rat.add Rat.mul Rat.sub Rat.inv Rat.ofScientific in
theorem util_lng9_parts :
    (lngFacilities.filterMap
      (fun p =>
        match lng9.lookup (dataKey p.1) with
        | some df =>
            if df.isEmpty then none else some (df.map (mkUtil p.1 p.2))
        | none => none)).flatten
      = [mkUtil "Sabine Pass" ⟨21/5, 21/5, "Louisiana", "Cheniere Energy"⟩
          ⟨0, 3800⟩] := by decide

/-- Evaluation of the utilization pipeline on the scenario input: only the
Sabine Pass series is present, and the sort of a single record is itself. -/
theorem util_lng9_eval :
    calculate_lng_utilization lng9
      = [mkUtil "Sabine Pass" ⟨21/5, 21/5, "Louisiana", "Cheniere Energy"⟩
          ⟨0, 3800⟩] := by
  unfold calculate_lng_utilization
  dsimp only
  rw [util_lng9_parts]
  exact List.mergeSort_singleton _

unseal Rat.add Rat.mul Rat.sub Rat.inv Rat.ofScientific in
/-- Claim C9: every emitted utilization record satisfies
daily = (value / 30.44) / 1000 and utilization = daily / capacity · 100
with the capacity (and the other joined columns) taken from the facility's
static configuration entry; and the spec's scenario — Sabine Pass capacity
4.2, monthly raw volume 3800 — yields utilization 47500/15981, within 0.005
of 2.97 percent. -/
theorem C9_utilization_formulas :
    (∀ (lng : List (String × List MObs)) (rec : UtilRecord),
      rec ∈ calculate_lng_utilization lng →
        rec.daily_exports = (rec.value / daysPerMonth) / 1000 ∧
        rec.utilization_rate = (rec.daily_exports / rec.capacity_bcfd) * 100 ∧
        ∃ info : FacilityInfo, (rec.facility, info) ∈ lngFacilities ∧
          rec.capacity_bcfd = info.current_capacity) ∧
    ((calculate_lng_utilization lng9).map
        (fun r => (r.capacity_bcfd, r.value, r.utilization_rate))
      = [(21/5, 3800, 47500/15981)] ∧
     |(47500 : ℚ)/15981 - 297/100| < 1/200) := by
  constructor
  · intro lng rec h
    unfold calculate_lng_utilization at h
    rw [List.mem_mergeSort] at h
    rcases List.mem_flatten.mp h with ⟨part, hpart, hrec⟩
    rcases List.mem_filterMap.mp hpart with ⟨⟨name, info⟩, hfac, hf⟩
    simp only at hf
    cases hlk : lng.lookup (dataKey name) with
    | none =>
        rw [hlk] at hf
        exact absurd hf (by simp)
    | some sdf =>
        rw [hlk] at hf
        dsimp only at hf
        by_cases hde : sdf.isEmpty
        · rw [if_pos hde] at hf
          exact absurd hf (by simp)
        · rw [if_neg hde] at hf
          injection hf with hpart2
          subst hpart2
          rcases List.mem_map.mp hrec with ⟨o, ho, hrec2⟩
          subst hrec2
          exact ⟨rfl, rfl, info, hfac, rfl⟩
  · rw [util_lng9_eval]
    exact ⟨by decide, by decide⟩

unseal Rat.add Rat.mul Rat.sub Rat.inv Rat.ofScientific in
/-- Witness for C9 at the spec's scenario input: the single Sabine Pass
record of lng9. -/
theorem C9_witness :
    (mkUtil "Sabine Pass" ⟨21/5, 21/5, "Louisiana", "Cheniere Energy"⟩
        ⟨0, 3800⟩).daily_exports
      = ((mkUtil "Sabine Pass" ⟨21/5, 21/5, "Louisiana", "Cheniere Energy"⟩
          ⟨0, 3800⟩).value / daysPerMonth) / 1000 ∧
    (mkUtil "Sabine Pass" ⟨21/5, 21/5, "Louisiana", "Cheniere Energy"⟩
        ⟨0, 3800⟩).utilization_rate
      = ((mkUtil "Sabine Pass" ⟨21/5, 21/5, "Louisiana", "Cheniere Energy"⟩
            ⟨0, 3800⟩).daily_exports /
          (mkUtil "Sabine Pass" ⟨21/5, 21/5, "Louisiana", "Cheniere Energy"⟩
            ⟨0, 3800⟩).capacity_bcfd) * 100 ∧
    ∃ info : FacilityInfo,
      ((mkUtil "Sabine Pass" ⟨21/5, 21/5, "Louisiana", "Cheniere Energy"⟩
          ⟨0, 3800⟩).facility, info) ∈ lngFacilities ∧
      (mkUtil "Sabine Pass" ⟨21/5, 21/5, "Louisiana", "Cheniere Energy"⟩
          ⟨0, 3800⟩).capacity_bcfd = info.current_capacity :=
  C9_utilization_formulas.1 lng9
    (mkUtil "Sabine Pass" ⟨21/5, 21/5, "Louisiana", "Cheniere Energy"⟩
      ⟨0, 3800⟩)
    (by rw [util_lng9_eval]; exact List.mem_singleton.mpr rfl)

/-- Claim C10: after any sequence of refresh and read operations from
process start, a dataset key has a cached snapshot exactly when it has a
last-update timestamp — successful refreshes store both together, failed
refreshes store neither, and reads mutate nothing. -/
theorem C10_key_presence_invariant (ops : List SchedOp) (k : DKey) :
    ((runSched ops).data_cache k).isSome
      = ((runSched ops).last_update k).isSome :=
  cacheInv_foldl ops initState cacheInv_init k

end LngDash
